import Mathlib

/-!
Verification of `jules-scratch/verification/verify_image_upload.py`.

The script is a straight-line Playwright routine: it issues one blocking
browser call at a time and any raised error (element not found, strict-mode
violation, visibility timeout) propagates unhandled to the process boundary.
We embed it as a fixed list of operations `runOps` (one entry per blocking
call in `run`, in source order) together with a fail-fast sequential
executor.  The behaviour of the external application and driver is
abstracted by an oracle `env : Nat → Bool` telling, for each position in the
sequence, whether that blocking call resolves successfully or raises.
-/

/-- One blocking driver call of the script, one constructor per kind of call
appearing in `run`.  The `fullPage` flag of `screenshot` records the
`full_page` argument of `page.screenshot`; the library default is `False`
when the call site omits it. -/
inductive Op where
  | goto (url : String)
  | fillByLabel (label text : String)
  | clickByRole (role nm : String)
  | expectVisibleByRole (role nm : String)
  | clickFirstByRole (role nm : String)
  | setInputFiles (selector path : String)
  | fillByPlaceholder (placeholder text : String)
  | expectVisibleByText (text : String)
  | screenshot (path : String) (fullPage : Bool)
  | closeBrowser
deriving DecidableEq, Repr

/-- The file written by an operation, if any: only `page.screenshot` writes
a file. -/
def writeOf : Op → Option String
  | .screenshot p _ => some p
  | _ => none

/-- Whether an operation is the explicit `browser.close()` call. -/
def isClose : Op → Bool
  | .closeBrowser => true
  | _ => false

/-- Observable state accumulated by one run: the operations that completed,
in order; the files written; whether the explicit close call completed. -/
structure RunState where
  executed : List Op
  writes : List String
  browserClosed : Bool
deriving DecidableEq, Repr

/-- State at the start of a run: nothing executed, nothing written. -/
def initState : RunState := ⟨[], [], false⟩

/-- Effect of one completed operation on the run state. -/
def step (s : RunState) (op : Op) : RunState :=
  { executed := s.executed ++ [op]
    writes := s.writes ++ (writeOf op).toList
    browserClosed := s.browserClosed || isClose op }

/-- Fail-fast sequential execution from position `i`: each call is issued
only after all earlier calls resolved; the first call whose oracle bit is
`false` raises, and execution stops there, returning the position and the
operation at which the run aborted (`none` when every call resolved). -/
def execFrom (env : Nat → Bool) : Nat → RunState → List Op → RunState × Option (Nat × Op)
  | _, s, [] => (s, none)
  | i, s, op :: rest =>
    if env i then execFrom env (i + 1) (step s op) rest else (s, some (i, op))

/-- The blocking calls of `run(playwright)`, transcribed in source order
from `src/jules-scratch/verification/verify_image_upload.py`.  The script
takes no flags, environment variables or configuration: this list is a
closed constant. -/
def runOps : List Op :=
  [Op.goto "http://127.0.0.1:8080/",
   Op.fillByLabel "Email" "test@test.com",
   Op.fillByLabel "Password" "password",
   Op.clickByRole "button" "Sign In",
   Op.expectVisibleByRole "link" "Users",
   Op.clickByRole "link" "Users",
   Op.expectVisibleByRole "button" "Chat",
   Op.clickFirstByRole "button" "Chat",
   Op.setInputFiles "input[type=\"file\"]" "jules-scratch/verification/red.png",
   Op.fillByPlaceholder "Add a caption..." "Here is an image!",
   Op.clickByRole "button" "Send message",
   Op.expectVisibleByText "Here is an image!",
   Op.screenshot "jules-scratch/verification/verification.png" false,
   Op.closeBrowser]

/-- One run of the script body under a given driver oracle. -/
def run (env : Nat → Bool) : RunState × Option (Nat × Op) :=
  execFrom env 0 initState runOps

/-- Process exit code: `0` when the script body returns normally, `1` when
an unhandled error propagates to the process boundary. -/
def exitCode (env : Nat → Bool) : Nat :=
  match (run env).2 with
  | none => 0
  | some _ => 1

/-- The `with sync_playwright() as playwright:` block: it executes
`run(playwright)` and on exit, whether normal or unwinding from an
exception, the context manager stops the driver, closing any still-open
browser. -/
def withSyncPlaywright (env : Nat → Bool) : RunState × Option (Nat × Op) :=
  ({ (run env).1 with browserClosed := true }, (run env).2)

/-- Number of consecutive oracle successes starting at position `i`, capped
at the second argument: the number of operations of a list started at `i`
that complete. -/
def successRun (env : Nat → Bool) : Nat → Nat → Nat
  | _, 0 => 0
  | i, n + 1 => if env i then successRun env (i + 1) n + 1 else 0

/-- A rendered UI element as seen by a role locator: its ARIA role, its
accessible name, and whether it is visible. -/
structure Elem where
  role : String
  nm : String
  visible : Bool
deriving DecidableEq, Repr

/-- Whether `page.get_by_role(role, name=nm)` matches an element; hidden
elements are excluded because the locator's include_hidden option defaults
to false. -/
def matchesRole (role nm : String) (e : Elem) : Bool :=
  e.role == role && e.nm == nm && e.visible

/-- The list of elements a `get_by_role` locator resolves to on a page,
in document order. -/
def resolveByRole (pageEls : List Elem) (role nm : String) : List Elem :=
  pageEls.filter (matchesRole role nm)

/-- Outcome of `expect(locator).to_be_visible()`: the assertion is strict,
so it succeeds only when the locator resolves to exactly one element and
that element is visible; with zero matches it times out and with several
matches it raises a strict-mode violation — either way it fails. -/
def toBeVisible (ms : List Elem) : Bool :=
  match ms with
  | [e] => e.visible
  | _ => false

/-- Outcome of `locator.first.click()`: it acts on the first resolved
element only, succeeding when that element exists and is visible. -/
def clickFirst (ms : List Elem) : Bool :=
  match ms with
  | [] => false
  | e :: _ => e.visible

/-- Modelled from the spec: the second, near-duplicate version of the
automation script, which is not under src/ (only
`verify_image_upload.py` is).  Per the spec it differs from `runOps` in
selectors/credentials only — "Login" vs "Sign In" and "Message" vs
"Chat". -/
def runOps2 : List Op :=
  [Op.goto "http://127.0.0.1:8080/",
   Op.fillByLabel "Email" "test@test.com",
   Op.fillByLabel "Password" "password",
   Op.clickByRole "button" "Login",
   Op.expectVisibleByRole "link" "Users",
   Op.clickByRole "link" "Users",
   Op.expectVisibleByRole "button" "Message",
   Op.clickFirstByRole "button" "Message",
   Op.setInputFiles "input[type=\"file\"]" "jules-scratch/verification/red.png",
   Op.fillByPlaceholder "Add a caption..." "Here is an image!",
   Op.clickByRole "button" "Send message",
   Op.expectVisibleByText "Here is an image!",
   Op.screenshot "jules-scratch/verification/verification.png" false,
   Op.closeBrowser]

/-- The kind of a blocking call, with its selector strings and literals
erased: two scripts with the same kinds in the same order run the same
procedure. -/
def opKind : Op → Nat
  | .goto _ => 0
  | .fillByLabel _ _ => 1
  | .clickByRole _ _ => 2
  | .expectVisibleByRole _ _ => 3
  | .clickFirstByRole _ _ => 4
  | .setInputFiles _ _ => 5
  | .fillByPlaceholder _ _ => 6
  | .expectVisibleByText _ => 7
  | .screenshot _ _ => 8
  | .closeBrowser => 9

theorem successRun_le (env : Nat → Bool) : ∀ n i, successRun env i n ≤ n := by
  intro n
  induction n with
  | zero => intro i; simp [successRun]
  | succ n ih =>
    intro i
    by_cases h : env i
    · simp only [successRun, h, if_true]
      exact Nat.succ_le_succ (ih (i + 1))
    · simp [successRun, h]

theorem le_successRun_iff (env : Nat → Bool) :
    ∀ n j i, j ≤ n → (j ≤ successRun env i n ↔ ∀ k, k < j → env (i + k) = true) := by
  intro n
  induction n with
  | zero =>
    intro j i hj
    interval_cases j
    simp [successRun]
  | succ n ih =>
    intro j i hj
    cases j with
    | zero => simp
    | succ j =>
      by_cases h : env i
      · simp only [successRun, h, if_true]
        rw [Nat.succ_le_succ_iff, ih j (i + 1) (Nat.le_of_succ_le_succ hj)]
        constructor
        · intro hall k hk
          cases k with
          | zero => simpa using h
          | succ k =>
            have := hall k (Nat.lt_of_succ_lt_succ hk)
            rwa [Nat.add_right_comm] at this
        · intro hall k hk
          have := hall (k + 1) (Nat.succ_lt_succ hk)
          rwa [Nat.add_right_comm]
      · simp only [successRun, h, Bool.false_eq_true, if_false]
        constructor
        · intro hle; omega
        · intro hall
          have := hall 0 (Nat.succ_pos j)
          simp [h] at this

theorem successRun_eq_of (env : Nat → Bool) :
    ∀ n j i, j < n → env (i + j) = false → (∀ k, k < j → env (i + k) = true) →
      successRun env i n = j := by
  intro n
  induction n with
  | zero => intro j i hj; omega
  | succ n ih =>
    intro j i hj hfail hall
    cases j with
    | zero =>
      have : env i = false := by simpa using hfail
      simp [successRun, this]
    | succ j =>
      have h0 : env i = true := by simpa using hall 0 (Nat.succ_pos j)
      have hfail' : env (i + 1 + j) = false := by rwa [Nat.add_right_comm]
      have hall' : ∀ k, k < j → env (i + 1 + k) = true := by
        intro k hk
        have := hall (k + 1) (Nat.succ_lt_succ hk)
        rwa [Nat.add_right_comm]
      simp [successRun, h0, ih j (i + 1) (Nat.lt_of_succ_lt_succ hj) hfail' hall']

theorem execFrom_executed (env : Nat → Bool) :
    ∀ (ops : List Op) (i : Nat) (s : RunState),
      (execFrom env i s ops).1.executed =
        s.executed ++ ops.take (successRun env i ops.length) := by
  intro ops
  induction ops with
  | nil => intro i s; simp [execFrom, successRun]
  | cons op rest ih =>
    intro i s
    by_cases h : env i
    · rw [show execFrom env i s (op :: rest) = execFrom env (i + 1) (step s op) rest by
        simp [execFrom, h]]
      rw [ih (i + 1) (step s op)]
      simp [step, successRun, h, List.append_assoc]
    · rw [show execFrom env i s (op :: rest) = (s, some (i, op)) by simp [execFrom, h]]
      simp [successRun, h]

theorem execFrom_writes (env : Nat → Bool) :
    ∀ (ops : List Op) (i : Nat) (s : RunState),
      (execFrom env i s ops).1.writes =
        s.writes ++ (ops.take (successRun env i ops.length)).filterMap writeOf := by
  intro ops
  induction ops with
  | nil => intro i s; simp [execFrom, successRun]
  | cons op rest ih =>
    intro i s
    by_cases h : env i
    · rw [show execFrom env i s (op :: rest) = execFrom env (i + 1) (step s op) rest by
        simp [execFrom, h]]
      rw [ih (i + 1) (step s op)]
      cases hw : writeOf op with
      | none => simp [step, successRun, h, hw, List.filterMap_cons]
      | some p => simp [step, successRun, h, hw, List.filterMap_cons, List.append_assoc]
    · rw [show execFrom env i s (op :: rest) = (s, some (i, op)) by simp [execFrom, h]]
      simp [successRun, h]

theorem execFrom_closed (env : Nat → Bool) :
    ∀ (ops : List Op) (i : Nat) (s : RunState),
      (execFrom env i s ops).1.browserClosed =
        (s.browserClosed || (ops.take (successRun env i ops.length)).any isClose) := by
  intro ops
  induction ops with
  | nil => intro i s; simp [execFrom, successRun]
  | cons op rest ih =>
    intro i s
    by_cases h : env i
    · rw [show execFrom env i s (op :: rest) = execFrom env (i + 1) (step s op) rest by
        simp [execFrom, h]]
      rw [ih (i + 1) (step s op)]
      simp [step, successRun, h, List.any_cons, Bool.or_assoc]
    · rw [show execFrom env i s (op :: rest) = (s, some (i, op)) by simp [execFrom, h]]
      simp [successRun, h]

theorem execFrom_snd (env : Nat → Bool) :
    ∀ (ops : List Op) (i : Nat) (s : RunState),
      (execFrom env i s ops).2 =
        (ops[successRun env i ops.length]?).map
          (fun op => (i + successRun env i ops.length, op)) := by
  intro ops
  induction ops with
  | nil => intro i s; simp [execFrom, successRun]
  | cons op rest ih =>
    intro i s
    by_cases h : env i
    · rw [show execFrom env i s (op :: rest) = execFrom env (i + 1) (step s op) rest by
        simp [execFrom, h]]
      rw [ih (i + 1) (step s op)]
      simp only [List.length_cons, successRun, h, if_true, List.getElem?_cons_succ]
      cases rest[successRun env (i + 1) rest.length]? with
      | none => simp
      | some op2 => simp [Option.map_some]; omega
    · rw [show execFrom env i s (op :: rest) = (s, some (i, op)) by simp [execFrom, h]]
      simp [successRun, h]

theorem runOps_length : runOps.length = 14 := rfl

theorem run_executed (env : Nat → Bool) :
    (run env).1.executed = runOps.take (successRun env 0 runOps.length) := by
  have h := execFrom_executed env runOps 0 initState
  simpa [run, initState] using h

theorem run_writes (env : Nat → Bool) :
    (run env).1.writes = (runOps.take (successRun env 0 runOps.length)).filterMap writeOf := by
  have h := execFrom_writes env runOps 0 initState
  simpa [run, initState] using h

theorem run_closed (env : Nat → Bool) :
    (run env).1.browserClosed = (runOps.take (successRun env 0 runOps.length)).any isClose := by
  have h := execFrom_closed env runOps 0 initState
  simpa [run, initState] using h

theorem run_snd (env : Nat → Bool) :
    (run env).2 = (runOps[successRun env 0 runOps.length]?).map
      (fun op => (successRun env 0 runOps.length, op)) := by
  have h := execFrom_snd env runOps 0 initState
  simpa [run, initState, Nat.zero_add] using h

theorem all_le_iff (env : Nat → Bool) (j : Nat) (hj : j ≤ runOps.length) :
    j ≤ successRun env 0 runOps.length ↔ ∀ k, k < j → env k = true := by
  have h := le_successRun_iff env runOps.length j 0 hj
  simpa [Nat.zero_add] using h

theorem successRun_runOps_eq (env : Nat → Bool) (j : Nat) (hj : j < runOps.length)
    (hf : env j = false) (hall : ∀ i, i < j → env i = true) :
    successRun env 0 runOps.length = j := by
  have h := successRun_eq_of env runOps.length j 0 hj (by simpa using hf)
    (fun k hk => by simpa using hall k hk)
  exact h

theorem run_snd_none_iff (env : Nat → Bool) :
    (run env).2 = none ↔ ∀ i, i < runOps.length → env i = true := by
  rw [run_snd, Option.map_eq_none']
  rw [List.getElem?_eq_none_iff]
  constructor
  · intro h
    have hle : runOps.length ≤ successRun env 0 runOps.length := h
    exact (all_le_iff env runOps.length le_rfl).1 hle
  · intro h
    exact (all_le_iff env runOps.length le_rfl).2 h

theorem exitCode_eq_zero_iff (env : Nat → Bool) :
    exitCode env = 0 ↔ (run env).2 = none := by
  rcases h : (run env).2 with _ | p <;> simp [exitCode, h]

/-- Claim C1: the script executes exactly one fixed, ordered sequence of UI
operations — navigate to the URL, fill Email, fill Password, click the
sign-in button, wait for the Users link, click it, wait for a Chat button,
click the first Chat button, set the file input, fill the caption, click
Send message, wait for the caption text, take a screenshot — followed only
by the explicit close.  For every driver behaviour the completed operations
are exactly the prefix of this sequence cut at the first unresolved call:
each operation begins only after every earlier one has resolved, with no
reordering, no skipping and no concurrency. -/
theorem run_fixed_sequence :
    runOps =
      [Op.goto "http://127.0.0.1:8080/",
       Op.fillByLabel "Email" "test@test.com",
       Op.fillByLabel "Password" "password",
       Op.clickByRole "button" "Sign In",
       Op.expectVisibleByRole "link" "Users",
       Op.clickByRole "link" "Users",
       Op.expectVisibleByRole "button" "Chat",
       Op.clickFirstByRole "button" "Chat",
       Op.setInputFiles "input[type=\"file\"]" "jules-scratch/verification/red.png",
       Op.fillByPlaceholder "Add a caption..." "Here is an image!",
       Op.clickByRole "button" "Send message",
       Op.expectVisibleByText "Here is an image!",
       Op.screenshot "jules-scratch/verification/verification.png" false] ++ [Op.closeBrowser]
    ∧ ∀ env : Nat → Bool,
        (run env).1.executed = runOps.take (successRun env 0 runOps.length)
        ∧ (run env).1.executed ++ runOps.drop (successRun env 0 runOps.length) = runOps := by
  refine ⟨rfl, fun env => ⟨run_executed env, ?_⟩⟩
  rw [run_executed env]
  exact List.take_append_drop _ _

/-- Claim C2: the run succeeds (process exit code 0) exactly when every
blocking call of the sequence resolves; and whenever the call at position
`j` is the first to fail, the run aborts right there — the result records
position `j` and its operation, and no operation on or after position `j`
completed (no retry, no recovery). -/
theorem run_fail_fast :
    (∀ env : Nat → Bool, exitCode env = 0 ↔ ∀ i, i < runOps.length → env i = true)
    ∧ ∀ env : Nat → Bool, ∀ j, ∀ hj : j < runOps.length, env j = false →
        (∀ i, i < j → env i = true) →
        (run env).2 = some (j, runOps[j]) ∧ (run env).1.executed = runOps.take j := by
  constructor
  · intro env
    rw [exitCode_eq_zero_iff, run_snd_none_iff]
  · intro env j hj hf hall
    have hsr : successRun env 0 runOps.length = j := successRun_runOps_eq env j hj hf hall
    constructor
    · rw [run_snd, hsr, List.getElem?_eq_getElem hj]
      rfl
    · rw [run_executed, hsr]

/-- Witness for `run_fail_fast`: under the driver behaviour whose call at
position 4 (the wait for the Users link) fails and all earlier calls
resolve, the run aborts at position 4 and only the first four operations
completed. -/
theorem run_fail_fast_witness :
    (run (fun i => decide (i ≠ 4))).2 = some (4, Op.expectVisibleByRole "link" "Users")
    ∧ (run (fun i => decide (i ≠ 4))).1.executed = runOps.take 4 := by
  have h := run_fail_fast.2 (fun i => decide (i ≠ 4)) 4 (by decide) (by decide) (by decide)
  exact ⟨h.1, h.2⟩

/-- Claim C3: the screenshot file is written exactly when every call up to
and including the screenshot call (position 12) resolved — so only after
the caption-visibility assertion (position 11) succeeded — and if any call
before the screenshot fails, the process exits with an error and the
screenshot file is never written. -/
theorem screenshot_only_on_success :
    ∀ env : Nat → Bool,
      ("jules-scratch/verification/verification.png" ∈ (run env).1.writes
        ↔ ∀ i, i < 13 → env i = true)
      ∧ ((∃ i, i < 12 ∧ env i = false) →
          exitCode env ≠ 0
          ∧ "jules-scratch/verification/verification.png" ∉ (run env).1.writes) := by
  intro env
  have hb : ∀ s, s ≤ 14 →
      ("jules-scratch/verification/verification.png" ∈ (runOps.take s).filterMap writeOf
        ↔ 13 ≤ s) := by decide
  have hsr_le : successRun env 0 runOps.length ≤ 14 := successRun_le env runOps.length 0
  have h13 : (13 : Nat) ≤ runOps.length := by decide
  have hmem : "jules-scratch/verification/verification.png" ∈ (run env).1.writes ↔
      13 ≤ successRun env 0 runOps.length := by
    rw [run_writes]
    exact hb _ hsr_le
  constructor
  · rw [hmem]
    exact all_le_iff env 13 h13
  · rintro ⟨i, hi, hfalse⟩
    have hi13 : i < 13 := by omega
    have hi14 : i < runOps.length := by rw [runOps_length]; omega
    have hnall14 : ¬ ∀ k, k < runOps.length → env k = true := by
      intro hall
      rw [hall i hi14] at hfalse
      cases hfalse
    have hnall13 : ¬ ∀ k, k < 13 → env k = true := by
      intro hall
      rw [hall i hi13] at hfalse
      cases hfalse
    constructor
    · intro h0
      exact hnall14 ((run_snd_none_iff env).1 ((exitCode_eq_zero_iff env).1 h0))
    · intro hinw
      exact hnall13 ((all_le_iff env 13 h13).1 (hmem.1 hinw))

/-- Witness for `screenshot_only_on_success`: under the driver behaviour
whose call at position 11 (the wait for the caption text) fails, the
process exits with an error and the screenshot file is not written. -/
theorem screenshot_only_on_success_witness :
    exitCode (fun i => decide (i ≠ 11)) ≠ 0
    ∧ "jules-scratch/verification/verification.png"
        ∉ (run (fun i => decide (i ≠ 11))).1.writes :=
  (screenshot_only_on_success (fun i => decide (i ≠ 11))).2 ⟨11, by decide, by decide⟩

/-- Claim C10: the explicit browser.close() call is reached exactly when
every preceding operation, the screenshot write included, succeeded —
reached meaning it either completed (it is in the executed trace) or was
the very call at which the run aborted; on any earlier failure the explicit
close is never reached, and cleanup falls to the sync_playwright context
manager, whose unwinding always leaves the browser closed. -/
theorem close_iff_success :
    ∀ env : Nat → Bool,
      ((Op.closeBrowser ∈ (run env).1.executed ∨ (run env).2 = some (13, Op.closeBrowser))
        ↔ ∀ i, i < 13 → env i = true)
      ∧ (withSyncPlaywright env).1.browserClosed = true := by
  intro env
  have hsr_le : successRun env 0 runOps.length ≤ 14 := successRun_le env runOps.length 0
  have hb : ∀ s, s ≤ 14 → (Op.closeBrowser ∈ runOps.take s ↔ s = 14) := by decide
  have h13 : (13 : Nat) ≤ runOps.length := by decide
  constructor
  · constructor
    · rintro (hmem | hsnd)
      · rw [run_executed] at hmem
        have h14 := (hb _ hsr_le).1 hmem
        exact (all_le_iff env 13 h13).1 (by omega)
      · rw [run_snd] at hsnd
        rcases hget : runOps[successRun env 0 runOps.length]? with _ | op
        · rw [hget] at hsnd
          cases hsnd
        · rw [hget] at hsnd
          simp only [Option.map_some', Option.some.injEq, Prod.mk.injEq] at hsnd
          exact (all_le_iff env 13 h13).1 hsnd.1.ge
    · intro hall
      have h13le : 13 ≤ successRun env 0 runOps.length := (all_le_iff env 13 h13).2 hall
      rcases Nat.eq_or_lt_of_le h13le with heq | hlt
      · right
        rw [run_snd, show successRun env 0 runOps.length = 13 from heq.symm]
        rfl
      · left
        have h14 : successRun env 0 runOps.length = 14 := by omega
        rw [run_executed, h14]
        decide
  · rfl

/-- Claim C4 (code bug): the operation after the caption-visibility wait is
a screenshot to the fixed path, but its full_page flag is the library
default false — the call site omits full_page=True, so the driver captures
only the viewport, against the comment above the call ("Take a screenshot
of the whole page"); no operation of the script requests a full-page
screenshot. -/
theorem screenshot_not_full_page :
    runOps[11]? = some (Op.expectVisibleByText "Here is an image!")
    ∧ runOps[12]? = some (Op.screenshot "jules-scratch/verification/verification.png" false)
    ∧ runOps.filter (fun op => match op with | Op.screenshot _ fp => fp | _ => false) = [] := by
  decide

/-- Claim C5: the caption filled before sending and the text waited for
after sending are the same literal string "Here is an image!": position 9
fills the caption input with it, position 10 clicks Send message, and
position 11 waits for an element with exactly that text. -/
theorem caption_matches_wait :
    ∃ c : String,
      runOps[9]? = some (Op.fillByPlaceholder "Add a caption..." c)
      ∧ runOps[10]? = some (Op.clickByRole "button" "Send message")
      ∧ runOps[11]? = some (Op.expectVisibleByText c)
      ∧ c = "Here is an image!" :=
  ⟨"Here is an image!", by decide⟩

/-- Claim C6: the run starts by navigating to the single fixed local URL
and logging in with the literal credentials (Email test@test.com, Password
password), clicking Sign In, then waiting for the Users link to be
visible.  `runOps` is a closed constant of the embedding, as the script
takes no flags, environment variables or configuration. -/
theorem login_fixed :
    runOps.take 5 =
      [Op.goto "http://127.0.0.1:8080/",
       Op.fillByLabel "Email" "test@test.com",
       Op.fillByLabel "Password" "password",
       Op.clickByRole "button" "Sign In",
       Op.expectVisibleByRole "link" "Users"] := by
  decide

/-- Claim C7: after the wait for a visible Chat button, the script clicks
the first button named Chat and then sets the file input matched by the
selector input[type="file"] to the literal local path
jules-scratch/verification/red.png. -/
theorem chat_click_then_upload :
    runOps[6]? = some (Op.expectVisibleByRole "button" "Chat")
    ∧ runOps[7]? = some (Op.clickFirstByRole "button" "Chat")
    ∧ runOps[8]? = some (Op.setInputFiles "input[type=\"file\"]"
        "jules-scratch/verification/red.png") := by
  decide

/-- Claim C8 (second script modelled from the spec): the two versions of
the automation script are near-duplicates of one procedure — the same
kinds of calls in the same order, identical at every position except the
sign-in click ("Login" vs "Sign In") and the chat-button wait and click
("Message" vs "Chat"). -/
theorem two_near_duplicate_variants :
    runOps2.map opKind = runOps.map opKind
    ∧ runOps2 ≠ runOps
    ∧ runOps2.take 3 = runOps.take 3
    ∧ runOps2[3]? = some (Op.clickByRole "button" "Login")
    ∧ runOps[3]? = some (Op.clickByRole "button" "Sign In")
    ∧ runOps2[4]? = runOps[4]?
    ∧ runOps2[5]? = runOps[5]?
    ∧ runOps2[6]? = some (Op.expectVisibleByRole "button" "Message")
    ∧ runOps2[7]? = some (Op.clickFirstByRole "button" "Message")
    ∧ runOps2.drop 8 = runOps.drop 8 := by
  decide

/-- Claim C9: the visibility assertion before the Chat click uses the bare
locator while the click itself uses .first: on every page where the
button-role locator named Chat resolves to more than one element, the
strict to_be_visible assertion fails even though a .first click would have
succeeded on the first match; a failure of the call at position 6 (this
assertion) aborts the run with only the six earlier operations
completed. -/
theorem chat_visible_strict_violation (page : List Elem)
    (h : 2 ≤ (resolveByRole page "button" "Chat").length) :
    toBeVisible (resolveByRole page "button" "Chat") = false
    ∧ clickFirst (resolveByRole page "button" "Chat") = true
    ∧ runOps[6]? = some (Op.expectVisibleByRole "button" "Chat")
    ∧ runOps[7]? = some (Op.clickFirstByRole "button" "Chat")
    ∧ ∀ env : Nat → Bool, env 6 = false → (∀ i, i < 6 → env i = true) →
        (run env).2 = some (6, Op.expectVisibleByRole "button" "Chat")
        ∧ (run env).1.executed = runOps.take 6 := by
  have hfacts : runOps[6]? = some (Op.expectVisibleByRole "button" "Chat")
      ∧ runOps[7]? = some (Op.clickFirstByRole "button" "Chat") := by decide
  have henv : ∀ env : Nat → Bool, env 6 = false → (∀ i, i < 6 → env i = true) →
      (run env).2 = some (6, Op.expectVisibleByRole "button" "Chat")
      ∧ (run env).1.executed = runOps.take 6 := by
    intro env h6 hall
    have hsr : successRun env 0 runOps.length = 6 :=
      successRun_runOps_eq env 6 (by decide) h6 hall
    constructor
    · rw [run_snd, hsr]
      rfl
    · rw [run_executed, hsr]
  rcases hres : resolveByRole page "button" "Chat" with _ | ⟨e, rest⟩
  · rw [hres] at h
    simp at h
  · rcases rest with _ | ⟨f, rest2⟩
    · rw [hres] at h
      simp at h
    · have he : e ∈ resolveByRole page "button" "Chat" := by
        rw [hres]
        exact List.mem_cons_self _ _
      have hm : matchesRole "button" "Chat" e = true := by
        simp only [resolveByRole, List.mem_filter] at he
        exact he.2
      have hvis : e.visible = true := by
        simp only [matchesRole, Bool.and_eq_true] at hm
        exact hm.2
      exact ⟨rfl, hvis, hfacts.1, hfacts.2, henv⟩

/-- Witness for `chat_visible_strict_violation`: on a page with two
visible Chat buttons, the strict visibility assertion fails while a
.first click would succeed. -/
theorem chat_visible_strict_violation_witness :
    2 ≤ (resolveByRole [⟨"button", "Chat", true⟩, ⟨"button", "Chat", true⟩]
          "button" "Chat").length
    ∧ toBeVisible (resolveByRole [⟨"button", "Chat", true⟩, ⟨"button", "Chat", true⟩]
          "button" "Chat") = false
    ∧ clickFirst (resolveByRole [⟨"button", "Chat", true⟩, ⟨"button", "Chat", true⟩]
          "button" "Chat") = true := by
  have h := chat_visible_strict_violation
    [⟨"button", "Chat", true⟩, ⟨"button", "Chat", true⟩] (by decide)
  exact ⟨by decide, h.1, h.2.1⟩
